import Mathlib

/-!
Verification of the Zero Vector 4 orchestration core (agents, tasks,
dependencies, orchestration service) against its natural-language
specification.

Modelling conventions for the shallow embedding:
* Python floats are modelled as exact rationals (`ℚ`).  Every concrete
  constant that a settled claim depends on (0.3, 0.6, 0.8, 0.95, their
  products with 10, and the thresholds 0.4 / 0.7) behaves identically in
  IEEE-754 double arithmetic and in exact rational arithmetic: in CPython,
  `0.3*10 == 3.0`, `0.6*10 == 6.0`, `0.8*10 == 8.0`, and `0.95*10 == 9.5`
  exactly, so `int(...)` on these values agrees with the rational floor.
* UUIDs are modelled as `Nat` identifiers; timestamps as rationals.
* A repository/database is modelled as an explicit in-memory state (lists
  of records); each service method becomes a pure function of that state.
* Python exceptions raised by the services become `Except` results; a
  raised exception leaves the stored record unchanged.
* Python dict payloads that the claims never inspect are modelled as
  association lists of strings.
-/

/-- Agent status enumeration (`AgentStatus` in `models/agents.py`). -/
inductive AgentStatus where
  | created | initializing | active | busy | idle
  | sleeping | dreaming | error | terminated | deactivated
deriving DecidableEq, Repr

/-- Agent record: the fields of `models/agents.py`'s `Agent` that the
settled claims depend on (identity, hierarchy link, status, and the
performance counters). -/
structure Agent where
  id : Nat
  parent_agent_id : Option Nat
  status : AgentStatus
  tasks_completed : Nat
  tasks_failed : Nat
  average_task_duration : ℚ
deriving DecidableEq, Repr

/-- Embeds `AgentRepository.update_performance_metrics`
(`database/repositories.py`, lines 175-196): `new_total` is the new
count of completed plus failed tasks, the running average is recomputed
as `(old_avg * (new_total - 1) + task_duration) / new_total`, and the
success flag decides which counter is incremented.  (The method body of
`Agent.update_performance_metrics` in `models/agents.py` computes the
same update.) -/
def update_performance_metrics (a : Agent) (task_duration : ℚ) (success : Bool) : Agent :=
  let new_total : Nat := a.tasks_completed + a.tasks_failed + 1
  let current_total_time : ℚ := a.average_task_duration * ((new_total - 1 : Nat) : ℚ)
  let new_average : ℚ := (current_total_time + task_duration) / (new_total : ℚ)
  { a with
    tasks_completed := a.tasks_completed + (if success then 1 else 0)
    tasks_failed := a.tasks_failed + (if success then 0 else 1)
    average_task_duration := new_average }

/-- Embeds `Agent.success_rate` (`models/agents.py`, lines 101-107): `1.0` when
no task has been counted yet, otherwise completed over total. -/
def success_rate (a : Agent) : ℚ :=
  let total : Nat := a.tasks_completed + a.tasks_failed
  if total = 0 then 1 else (a.tasks_completed : ℚ) / (total : ℚ)

/-- A freshly created agent record: `AgentService.create_agent` builds a
`TLPAgent`/`BasicAgent` without touching the performance counters, so
they take the model defaults `tasks_completed = 0`, `tasks_failed = 0`,
`average_task_duration = 0.0`. -/
def create_agent_record (id : Nat) (parent_agent_id : Option Nat) (status : AgentStatus) : Agent :=
  { id := id
    parent_agent_id := parent_agent_id
    status := status
    tasks_completed := 0
    tasks_failed := 0
    average_task_duration := 0 }

/-- Folding a sequence of `(duration, success)` updates over an agent,
one `update_performance_metrics` call per element. -/
def apply_performance_updates (a : Agent) (l : List (ℚ × Bool)) : Agent :=
  l.foldl (fun acc du => update_performance_metrics acc du.1 du.2) a

-- Helper facts about the performance fold.

theorem update_total_count (a : Agent) (d : ℚ) (s : Bool) :
    (update_performance_metrics a d s).tasks_completed
      + (update_performance_metrics a d s).tasks_failed
      = a.tasks_completed + a.tasks_failed + 1 := by
  cases s <;> simp [update_performance_metrics] <;> omega

theorem update_total_time (a : Agent) (d : ℚ) (s : Bool) :
    (update_performance_metrics a d s).average_task_duration
        * ((a.tasks_completed + a.tasks_failed + 1 : Nat) : ℚ)
      = a.average_task_duration * ((a.tasks_completed + a.tasks_failed : Nat) : ℚ) + d := by
  have hne : ((a.tasks_completed + a.tasks_failed + 1 : Nat) : ℚ) ≠ 0 := by
    exact_mod_cast Nat.succ_ne_zero (a.tasks_completed + a.tasks_failed)
  cases s <;>
    simp only [update_performance_metrics, Nat.add_sub_cancel] <;>
    rw [div_mul_cancel₀ _ hne]

theorem apply_updates_invariant (l : List (ℚ × Bool)) (a : Agent) :
    (apply_performance_updates a l).tasks_completed
        + (apply_performance_updates a l).tasks_failed
      = a.tasks_completed + a.tasks_failed + l.length ∧
    (apply_performance_updates a l).average_task_duration
        * ((a.tasks_completed + a.tasks_failed + l.length : Nat) : ℚ)
      = a.average_task_duration * ((a.tasks_completed + a.tasks_failed : Nat) : ℚ)
        + (l.map Prod.fst).sum := by
  induction l generalizing a with
  | nil => simp [apply_performance_updates]
  | cons hd tl ih =>
    have step := ih (update_performance_metrics a hd.1 hd.2)
    have hcount := update_total_count a hd.1 hd.2
    have htime := update_total_time a hd.1 hd.2
    constructor
    · have := step.1
      simpa [apply_performance_updates, hcount, Nat.add_assoc, Nat.add_comm,
        Nat.add_left_comm] using this
    · have h2 := step.2
      rw [hcount] at h2
      have harr : a.tasks_completed + a.tasks_failed + 1 + tl.length
          = a.tasks_completed + a.tasks_failed + (tl.length + 1) := by omega
      rw [harr] at h2
      have : (apply_performance_updates a (hd :: tl)).average_task_duration
          = (apply_performance_updates (update_performance_metrics a hd.1 hd.2) tl).average_task_duration := by
        simp [apply_performance_updates]
      rw [show ((hd :: tl).map Prod.fst).sum = hd.1 + (tl.map Prod.fst).sum by simp]
      calc (apply_performance_updates a (hd :: tl)).average_task_duration
            * ((a.tasks_completed + a.tasks_failed + (hd :: tl).length : Nat) : ℚ)
          = (apply_performance_updates (update_performance_metrics a hd.1 hd.2) tl).average_task_duration
            * ((a.tasks_completed + a.tasks_failed + (tl.length + 1) : Nat) : ℚ) := by
            rw [this]; norm_num
        _ = (update_performance_metrics a hd.1 hd.2).average_task_duration
            * ((a.tasks_completed + a.tasks_failed + 1 : Nat) : ℚ) + (tl.map Prod.fst).sum := h2
        _ = a.average_task_duration * ((a.tasks_completed + a.tasks_failed : Nat) : ℚ)
            + hd.1 + (tl.map Prod.fst).sum := by rw [htime]
        _ = a.average_task_duration * ((a.tasks_completed + a.tasks_failed : Nat) : ℚ)
            + (hd.1 + (tl.map Prod.fst).sum) := by ring

/-- Claim C3: starting from a freshly created agent, after any sequence of
`update_performance_metrics` calls with durations `d1..dN` (any mix of
success flags), `average_task_duration` is the arithmetic mean of the
durations; each single update computes
`(old_avg * (new_total - 1) + duration) / new_total` with `new_total`
the new count of completed plus failed tasks; and the resulting average
does not depend on the order of the updates. -/
theorem c3_average_duration_is_mean (id : Nat) (pid : Option Nat) (st : AgentStatus)
    (l l2 : List (ℚ × Bool)) (hne : l ≠ []) (hperm : l.Perm l2) :
    (apply_performance_updates (create_agent_record id pid st) l).average_task_duration
        = (l.map Prod.fst).sum / (l.length : ℚ) ∧
    (∀ a d s, (update_performance_metrics a d s).average_task_duration
        = (a.average_task_duration * ((a.tasks_completed + a.tasks_failed : Nat) : ℚ) + d)
          / ((a.tasks_completed + a.tasks_failed + 1 : Nat) : ℚ)) ∧
    (apply_performance_updates (create_agent_record id pid st) l).average_task_duration
        = (apply_performance_updates (create_agent_record id pid st) l2).average_task_duration := by
  have hlen : (l.length : ℚ) ≠ 0 := by
    have : l.length ≠ 0 := by
      intro h; exact hne (List.length_eq_zero.mp h)
    exact_mod_cast this
  have key : ∀ (m : List (ℚ × Bool)), m ≠ [] →
      (apply_performance_updates (create_agent_record id pid st) m).average_task_duration
        = (m.map Prod.fst).sum / (m.length : ℚ) := by
    intro m hm
    have hm0 : (m.length : ℚ) ≠ 0 := by
      have : m.length ≠ 0 := by intro h; exact hm (List.length_eq_zero.mp h)
      exact_mod_cast this
    have inv := (apply_updates_invariant m (create_agent_record id pid st)).2
    have hc : (create_agent_record id pid st).tasks_completed = 0 := rfl
    have hf : (create_agent_record id pid st).tasks_failed = 0 := rfl
    have ha : (create_agent_record id pid st).average_task_duration = 0 := rfl
    rw [hc, hf, ha] at inv
    simp only [Nat.zero_add, zero_mul, zero_add] at inv
    field_simp
    linarith [inv]
  refine ⟨key l hne, ?_, ?_⟩
  · intro a d s
    cases s <;> simp [update_performance_metrics, Nat.add_sub_cancel]
  · have hl2 : l2 ≠ [] := by
      intro h; subst h
      exact hne (List.Perm.eq_nil hperm)
    rw [key l hne, key l2 hl2, hperm.length_eq,
      List.Perm.sum_eq (List.Perm.map Prod.fst hperm)]

/-- Witness for C3 at the concrete duration lists `[(2, true), (4, false)]`
and its permutation `[(4, false), (2, true)]`: both hypotheses hold and
the mean is `3`. -/
theorem c3_average_duration_is_mean_witness :
    ([((2 : ℚ), true), ((4 : ℚ), false)] ≠ ([] : List (ℚ × Bool))) ∧
    (apply_performance_updates (create_agent_record 1 none AgentStatus.active)
        [((2 : ℚ), true), ((4 : ℚ), false)]).average_task_duration
      = ([((2 : ℚ), true), ((4 : ℚ), false)].map Prod.fst).sum / 2 :=
  ⟨by decide, by
    have h := c3_average_duration_is_mean 1 none AgentStatus.active
      [((2 : ℚ), true), ((4 : ℚ), false)] [((4 : ℚ), false), ((2 : ℚ), true)]
      (by decide) (by decide)
    simpa using h.1⟩

/-- Claim C10: `success_rate` is `1.0` for every agent with
`tasks_completed + tasks_failed = 0` — in particular for every freshly
created agent — and otherwise equals
`tasks_completed / (tasks_completed + tasks_failed)`. -/
theorem c10_success_rate (a : Agent) (id : Nat) (pid : Option Nat) (st : AgentStatus)
    (hz : a.tasks_completed + a.tasks_failed = 0) :
    success_rate a = 1 ∧
    success_rate (create_agent_record id pid st) = 1 ∧
    (∀ b : Agent, b.tasks_completed + b.tasks_failed ≠ 0 →
      success_rate b = (b.tasks_completed : ℚ) / ((b.tasks_completed + b.tasks_failed : Nat) : ℚ)) := by
  refine ⟨by simp [success_rate, hz], by simp [success_rate, create_agent_record], ?_⟩
  intro b hb
  simp [success_rate, hb]

/-- A sample agent with 3 completed and 1 failed task, for the C10 witness. -/
def sample_agent_3_1 : Agent :=
  { id := 6
    parent_agent_id := none
    status := AgentStatus.active
    tasks_completed := 3
    tasks_failed := 1
    average_task_duration := 0 }

/-- Witness for C10: a fresh agent (zero counters) has success rate `1`,
and an agent with 3 completed and 1 failed task has success rate `3/4`. -/
theorem c10_success_rate_witness :
    success_rate (create_agent_record 5 none AgentStatus.active) = 1 ∧
    success_rate sample_agent_3_1 = 3 / 4 := by
  have h := c10_success_rate (create_agent_record 5 none AgentStatus.active) 5 none
    AgentStatus.active (by decide)
  refine ⟨h.2.1, ?_⟩
  have h3 := h.2.2 sample_agent_3_1 (by decide)
  simpa [sample_agent_3_1] using h3

/-- Task status enumeration (`TaskStatus` in `models/tasks.py`). -/
inductive TaskStatus where
  | created | queued | assigned | in_progress | waiting_for_dependencies
  | delegated | under_review | completed | failed | cancelled | timeout
deriving DecidableEq, Repr

/-- Task record (named `TaskRecord` because `Task` is taken by the Lean core): the fields of `models/tasks.py`'s `Task` that the settled
claims depend on (status, timing, retry bookkeeping, and the error
payload that `fail_task` writes into `output_data`). -/
structure TaskRecord where
  id : Nat
  status : TaskStatus
  assigned_agent_id : Option Nat
  started_at : Option ℚ
  completed_at : Option ℚ
  actual_duration : Option ℚ
  retry_count : Nat
  max_retries : Nat
  output_data : List (String × String)
deriving DecidableEq, Repr

/-- A task as `TaskService.create_task` stores it: status `created`,
no timing information, `retry_count = 0` and the model default
`max_retries = 3` (`models/tasks.py`, line 95). -/
def create_task_record (id : Nat) : TaskRecord :=
  { id := id
    status := TaskStatus.created
    assigned_agent_id := none
    started_at := none
    completed_at := none
    actual_duration := none
    retry_count := 0
    max_retries := 3
    output_data := [] }

/-- Errors raised by the task service (`ValueError` in the source; the
spec maps the first to `RetryLimitExceededError` and the others to
`ValidationError`/`NotFoundError`). -/
inductive TaskServiceError where
  | retryLimitExceeded
  | notInFailedState
  | notFound
  | agentNotActive
  | typeError
deriving DecidableEq, Repr

/-- Embeds `TaskService.fail_task` (`services/task_service.py`, lines 202-247):
stamps `completed_at`, computes `actual_duration` when the task was
started, increments `retry_count` unconditionally, records the error
message and failure timestamp in `output_data`, and sets the status to
`failed`.  The method performs no status precondition check and no
bound check against `max_retries`. -/
def fail_task (t : TaskRecord) (error_message : String) (now : ℚ) : TaskRecord :=
  let actual_duration : Option ℚ := t.started_at.map (fun s => now - s)
  { t with
    status := TaskStatus.failed
    completed_at := some now
    actual_duration := actual_duration
    retry_count := t.retry_count + 1
    output_data := t.output_data
      ++ [("error_message", error_message), ("failure_timestamp", toString (now : ℚ).num)] }

/-- Embeds `TaskService.retry_task` (`services/task_service.py`, lines 249-281):
raises once `retry_count >= max_retries`, raises when the status is not
`failed`, and otherwise resets `started_at` / `completed_at` /
`actual_duration` to null and re-queues the task. -/
def retry_task (t : TaskRecord) : Except TaskServiceError TaskRecord :=
  if t.max_retries ≤ t.retry_count then .error .retryLimitExceeded
  else if t.status ≠ TaskStatus.failed then .error .notInFailedState
  else .ok { t with
    status := TaskStatus.queued
    started_at := none
    completed_at := none
    actual_duration := none }

/-- The stored task after a `retry_task` call: the repository row is
only updated when no exception was raised, so an error leaves the task
unchanged. -/
def retry_task_state (t : TaskRecord) : TaskRecord :=
  match retry_task t with
  | .ok t2 => t2
  | .error _ => t

/-- Claim C4: `retry_task` succeeds exactly when the status is `failed`
and `retry_count < max_retries`, in which case it resets `started_at`,
`completed_at` and `actual_duration` to null and re-queues the task;
in every other state it raises (`RetryLimitExceeded` once the retry
bound is reached, a validation error otherwise) and the stored task is
left unchanged. -/
theorem c4_retry_task (t : TaskRecord)
    (hok : t.status = TaskStatus.failed ∧ t.retry_count < t.max_retries) :
    retry_task t = .ok { t with
        status := TaskStatus.queued
        started_at := none
        completed_at := none
        actual_duration := none } ∧
    (∀ u : TaskRecord, u.max_retries ≤ u.retry_count →
      retry_task u = .error TaskServiceError.retryLimitExceeded ∧ retry_task_state u = u) ∧
    (∀ u : TaskRecord, u.status ≠ TaskStatus.failed → (retry_task u).isOk = false ∧ retry_task_state u = u) ∧
    (∀ u : TaskRecord, (retry_task u).isOk = true ↔
      u.status = TaskStatus.failed ∧ u.retry_count < u.max_retries) := by
  refine ⟨?_, ?_, ?_, ?_⟩
  · simp [retry_task, Nat.not_le.mpr hok.2, hok.1]
  · intro u hu
    simp [retry_task, retry_task_state, hu]
  · intro u hu
    by_cases hb : u.max_retries ≤ u.retry_count <;>
      simp [retry_task, retry_task_state, hu, hb, Except.isOk, Except.toBool]
  · intro u
    by_cases hb : u.max_retries ≤ u.retry_count
    · simp [retry_task, hb, Except.isOk, Except.toBool]
    · by_cases hs : u.status = TaskStatus.failed <;>
        simp [retry_task, hb, hs, Except.isOk, Except.toBool, Nat.lt_of_not_le hb]

/-- Witness for C4 at a concrete failed task with `retry_count = 1 <
3 = max_retries`: the retry succeeds and re-queues the task. -/
theorem c4_retry_task_witness :
    ((fail_task (create_task_record 9) "boom" 7).status = TaskStatus.failed ∧
      (fail_task (create_task_record 9) "boom" 7).retry_count
        < (fail_task (create_task_record 9) "boom" 7).max_retries) ∧
    (retry_task (fail_task (create_task_record 9) "boom" 7)).isOk = true := by
  have h := c4_retry_task (fail_task (create_task_record 9) "boom" 7) (by decide)
  exact ⟨by decide, by rw [h.1]; rfl⟩

/-- The task obtained from a fresh task by four consecutive
`TaskService.fail_task` calls (the service imposes no status or bound
precondition on `fail_task`, so every call goes through). -/
def quadruple_failed_task : TaskRecord :=
  fail_task (fail_task (fail_task (fail_task (create_task_record 1) "e1" 1) "e2" 2) "e3" 3) "e4" 4

/-- Claim C5, evaluated at the failing input: `fail_task` increments
`retry_count` unconditionally (`services/task_service.py`, line 221, and
`models/tasks.py`, line 143), so four consecutive `fail_task` calls on a
fresh task (default `max_retries = 3`) drive `retry_count` to `4`,
violating the spec invariant `retry_count <= max_retries`.  The second
half of the claim does hold: once the bound is reached, `retry_task`
raises the retry-limit error. -/
theorem c5_retry_count_bound_violated :
    quadruple_failed_task.retry_count = 4 ∧
    quadruple_failed_task.max_retries = 3 ∧
    ¬ quadruple_failed_task.retry_count ≤ quadruple_failed_task.max_retries ∧
    retry_task quadruple_failed_task = .error TaskServiceError.retryLimitExceeded := by
  refine ⟨rfl, rfl, by decide, rfl⟩

/-- Task dependency edge (`TaskDependency` in `models/relationships.py`):
the identifying pair, the type string, the `is_blocking` / `is_critical`
flags and the `is_satisfied` state (model default `False`). -/
structure TaskDependency where
  id : Nat
  dependent_task_id : Nat
  dependency_task_id : Nat
  dependency_type : String
  is_blocking : Bool
  is_critical : Bool
  is_satisfied : Bool
deriving DecidableEq, Repr

/-- The mapped attribute names of `AgentRelationshipTable`
(`database/tables.py`, lines 234-282, plus `id` / `created_at` /
`updated_at` / `metadata_json` inherited from `TimestampedSQLModel` in
`models/base.py`): the only keyword arguments its SQLAlchemy
declarative constructor accepts.  (The `relationship()` attributes
`agent_a` / `agent_b` are also accepted but are irrelevant here.) -/
def agent_relationship_table_columns : List String :=
  ["id", "created_at", "updated_at", "metadata_json",
   "name", "description", "agent_a_id", "agent_b_id", "relationship_type", "status",
   "strength", "trust_level", "collaboration_frequency",
   "is_directional", "dominant_agent_id",
   "interaction_count", "successful_collaborations", "failed_collaborations",
   "last_interaction",
   "formation_context", "shared_experiences", "relationship_tags",
   "compatibility_score", "conflict_resolution_ability", "agent_a", "agent_b"]

/-- The keys of `TaskDependency.dict()`: the fields of `TaskDependency`
(`models/relationships.py`, lines 133-153) together with those of its
pydantic base chain `StatusModel` / `VersionedModel` /
`ConfigurableModel` / `IdentifiableModel` / `TimestampedModel`
(`models/base.py`). -/
def task_dependency_dict_keys : List String :=
  ["created_at", "updated_at", "id", "name", "description", "config",
   "version", "schema_version", "status", "status_message", "status_details",
   "dependent_task_id", "dependency_task_id", "dependency_type",
   "is_blocking", "is_critical", "satisfaction_criteria",
   "is_satisfied", "satisfaction_timestamp",
   "creation_reason", "estimated_wait_time", "actual_wait_time"]

/-- Embeds `BaseRepository.create` (`database/repositories.py`, lines
34-45): `self.table_class(**model.dict())`.  The SQLAlchemy declarative
constructor raises `TypeError` as soon as one key of the dict is not a
mapped attribute of the table class; only when every key is accepted is
the row flushed. -/
def declarative_construct {β : Type} (table_columns : List String)
    (data_keys : List String) (row : β) : Except TaskServiceError β :=
  if data_keys.all (fun k => table_columns.contains k) then .ok row
  else .error TaskServiceError.typeError

/-- Embeds `TaskService.create_task_dependency`
(`services/task_service.py`, lines 320-349): builds the `TaskDependency`
pydantic record from its arguments (no validation of any kind — in
particular no comparison of `dependent_task_id` with
`dependency_task_id`, and the pydantic model declares no validator
either) and persists it through `RelationshipRepository.create`.  That
repository is constructed over `AgentRelationshipTable`
(`database/repositories.py`, line 403), so the insert attempts
`AgentRelationshipTable(**dependency.dict())`; dependency-specific keys
such as `dependent_task_id` are not mapped attributes of that table, so
the constructor raises `TypeError` before any row is written. -/
def create_task_dependency (fresh_id : Nat) (dependent_task_id : Nat)
    (dependency_task_id : Nat) (dependency_type : String)
    (is_blocking : Bool) (is_critical : Bool) : Except TaskServiceError TaskDependency :=
  let dependency : TaskDependency :=
    { id := fresh_id
      dependent_task_id := dependent_task_id
      dependency_task_id := dependency_task_id
      dependency_type := dependency_type
      is_blocking := is_blocking
      is_critical := is_critical
      is_satisfied := false }
  declarative_construct agent_relationship_table_columns task_dependency_dict_keys dependency

/-- The `check_different_tasks` constraint of the `task_dependencies`
schema (`database/tables.py`, line 324, created at startup via
`metadata.create_all`): the database accepts a dependency row only when
`dependent_task_id != dependency_task_id`. -/
def check_different_tasks (row : TaskDependency) : Bool :=
  row.dependent_task_id != row.dependency_task_id

/-- A self-referential dependency row (7, 7) and a well-formed one
(7, 8), for evaluating the C8 claim. -/
def self_dependency_row : TaskDependency :=
  { id := 100
    dependent_task_id := 7
    dependency_task_id := 7
    dependency_type := "finish_to_start"
    is_blocking := true
    is_critical := false
    is_satisfied := false }

def distinct_dependency_row : TaskDependency :=
  { id := 100
    dependent_task_id := 7
    dependency_task_id := 8
    dependency_type := "finish_to_start"
    is_blocking := true
    is_critical := false
    is_satisfied := false }

/-- Claim C8, evaluated on the code: `create_task_dependency` raises
`TypeError` and persists nothing for EVERY argument pair — for the
self-pair (7, 7), where the claim expects a `ValidationError`, but
equally for the distinct pair (7, 8), where the claim expects a
dependency edge to be created — because the dependency keys (e.g.
`dependent_task_id`) are not mapped attributes of
`AgentRelationshipTable`, the table its repository inserts into.
Independently, the `task_dependencies` schema itself rejects self-pairs:
`check_different_tasks` fails on the (7, 7) row and holds on the (7, 8)
row, so even with the repository wired to `TaskDependencyTable` the
self-referential insert would abort with a database `IntegrityError`,
not the service-level `ValidationError` the claim names. -/
theorem c8_dependency_creation_always_raises :
    create_task_dependency 100 7 7 "finish_to_start" true false
      = .error TaskServiceError.typeError ∧
    create_task_dependency 100 7 8 "finish_to_start" true false
      = .error TaskServiceError.typeError ∧
    (∀ (fid dep dcy : Nat) (ty : String) (b c : Bool),
      create_task_dependency fid dep dcy ty b c = .error TaskServiceError.typeError) ∧
    task_dependency_dict_keys.contains "dependent_task_id" = true ∧
    agent_relationship_table_columns.contains "dependent_task_id" = false ∧
    check_different_tasks self_dependency_row = false ∧
    check_different_tasks distinct_dependency_row = true :=
  ⟨rfl, rfl, fun _ _ _ _ _ _ => rfl, rfl, rfl, rfl, rfl⟩

/-- The status filter of `TaskRepository.get_ready_tasks`:
`status.in_(['created', 'queued', 'assigned'])`. -/
def status_is_ready (s : TaskStatus) : Bool :=
  match s with
  | .created | .queued | .assigned => true
  | _ => false

/-- The stored task and dependency tables, as the repository sees them. -/
structure TaskDb where
  tasks : List TaskRecord
  dependencies : List TaskDependency
deriving DecidableEq, Repr

/-- Embeds `TaskRepository.get_ready_tasks` (`database/repositories.py`, lines
229-249), which `TaskService.get_ready_tasks` returns unchanged: tasks
whose status is in `{created, queued, assigned}` and whose id is not in
`select dependent_task_id where is_satisfied == False`.  Note that the
SQL filter tests only `is_satisfied` — the `is_blocking` flag of the
dependency is not consulted. -/
def get_ready_tasks (db : TaskDb) : List TaskRecord :=
  db.tasks.filter (fun t =>
    status_is_ready t.status &&
      !(db.dependencies.any (fun d => !d.is_satisfied && d.dependent_task_id == t.id)))

/-- Ready tasks as the claim (and spec §4.2) words them: only *blocking*
unsatisfied dependencies exclude a task.  Kept separate from
`get_ready_tasks` (the embedding of the source) for comparison. -/
def get_ready_tasks_per_claim (db : TaskDb) : List TaskRecord :=
  db.tasks.filter (fun t =>
    status_is_ready t.status &&
      !(db.dependencies.any (fun d =>
        d.is_blocking && !d.is_satisfied && d.dependent_task_id == t.id)))

theorem status_is_ready_iff (s : TaskStatus) :
    status_is_ready s = true ↔
      (s = TaskStatus.created ∨ s = TaskStatus.queued ∨ s = TaskStatus.assigned) := by
  cases s <;> simp [status_is_ready]

/-- A database with one freshly created task and one unsatisfied
NON-blocking dependency naming it as dependent. -/
def c2_db : TaskDb :=
  { tasks := [create_task_record 1]
    dependencies := [{ id := 50, dependent_task_id := 1, dependency_task_id := 2,
                       dependency_type := "finish_to_start", is_blocking := false,
                       is_critical := false, is_satisfied := false }] }

/-- Counterexample to claim C2: task 1 has only an unsatisfied
non-blocking dependency, so by the claim it should still be returned by
`get_ready_tasks`; the code returns the empty list, while the claim
predicate (blocking dependencies only) returns task 1. -/
theorem c2_nonblocking_dependency_counterexample :
    get_ready_tasks c2_db = [] ∧
    get_ready_tasks_per_claim c2_db = [create_task_record 1] := by
  refine ⟨rfl, rfl⟩

/-- Claim C2 as amended: `get_ready_tasks` returns exactly the tasks
whose status is in `{created, queued, assigned}` and whose id is not the
`dependent_task_id` of ANY unsatisfied dependency, blocking or not; in
particular a task with an unsatisfied blocking dependency on an
incomplete task is excluded until that dependency is satisfied. -/
theorem c2_ready_tasks (db : TaskDb) (t : TaskRecord) :
    (t ∈ get_ready_tasks db ↔
      t ∈ db.tasks ∧
        (t.status = TaskStatus.created ∨ t.status = TaskStatus.queued ∨
          t.status = TaskStatus.assigned) ∧
        ∀ d ∈ db.dependencies, d.dependent_task_id = t.id → d.is_satisfied = true) ∧
    (∀ d ∈ db.dependencies, d.is_satisfied = false → d.dependent_task_id = t.id →
      t ∉ get_ready_tasks db) := by
  have hmem : t ∈ get_ready_tasks db ↔
      t ∈ db.tasks ∧
        (t.status = TaskStatus.created ∨ t.status = TaskStatus.queued ∨
          t.status = TaskStatus.assigned) ∧
        ∀ d ∈ db.dependencies, d.dependent_task_id = t.id → d.is_satisfied = true := by
    simp only [get_ready_tasks, List.mem_filter, Bool.and_eq_true, Bool.not_eq_true',
      List.any_eq_false, status_is_ready_iff, beq_iff_eq]
    constructor
    · rintro ⟨h1, hs, hd⟩
      refine ⟨h1, hs, fun d hdmem heq => ?_⟩
      by_contra hfalse
      have hfa : d.is_satisfied = false := by
        cases hsat : d.is_satisfied
        · rfl
        · exact absurd hsat hfalse
      exact hd d hdmem ⟨hfa, heq⟩
    · rintro ⟨h1, hs, hd⟩
      refine ⟨h1, hs, fun d hdmem => ?_⟩
      rintro ⟨hfa, heq⟩
      have := hd d hdmem heq
      rw [this] at hfa
      exact Bool.noConfusion hfa
  refine ⟨hmem, fun d hdmem hsat heq hready => ?_⟩
  have := (hmem.mp hready).2.2 d hdmem heq
  rw [this] at hsat
  exact Bool.noConfusion hsat

/-- Witness for C2 (amended) at a concrete database: in `c2_db`, task 1
is named by an unsatisfied dependency, so it is not returned. -/
theorem c2_ready_tasks_witness :
    (c2_db.dependencies.head?.isSome = true) ∧
    create_task_record 1 ∉ get_ready_tasks c2_db := by
  refine ⟨rfl, ?_⟩
  have h := (c2_ready_tasks c2_db (create_task_record 1)).2
    { id := 50, dependent_task_id := 1, dependency_task_id := 2,
      dependency_type := "finish_to_start", is_blocking := false,
      is_critical := false, is_satisfied := false }
    (by simp [c2_db]) rfl rfl
  exact h

/-- Whether the first character list is an initial segment of the second
(helper for the Python `in` substring test). -/
def starts_with : List Char → List Char → Bool
  | [], _ => true
  | _ :: _, [] => false
  | a :: as, b :: bs => a == b && starts_with as bs

/-- Whether the first character list occurs contiguously inside the
second. -/
def char_sublist : List Char → List Char → Bool
  | needle, [] => needle.isEmpty
  | needle, c :: rest => starts_with needle (c :: rest) || char_sublist needle rest

/-- The Python substring test `needle in haystack`. -/
def contains_substring (haystack needle : String) : Bool :=
  char_sublist needle.toList haystack.toList

/-- The fixed keyword table `department_mapping` of
`OrchestrationService._analyze_task_complexity`
(`services/orchestration_service.py`, lines 360-368), in source order. -/
def department_mapping : List (String × List String) :=
  [("software_development", ["programming", "coding", "development"]),
   ("data_analysis", ["analysis", "data", "statistics"]),
   ("research", ["research", "investigation", "study"]),
   ("creative", ["creative", "design", "artistic"]),
   ("technical_writing", ["writing", "documentation"]),
   ("project_management", ["management", "coordination"]),
   ("quality_assurance", ["testing", "quality", "validation"])]

/-- The department scan of `_analyze_task_complexity` (lines 370-373): a
department is selected when one of its keywords occurs as a substring of
the lowercased description or is an element of `required_expertise`. -/
def matched_departments (description : String) (required_expertise : List String) : List String :=
  (department_mapping.filter (fun dk =>
    dk.2.any (fun kw =>
      contains_substring description.toLower kw || required_expertise.contains kw))).map
    Prod.fst

/-- Decomposition strategies (`DecompositionStrategy` in
`services/orchestration_service.py`). -/
inductive DecompositionStrategy where
  | sequential | parallel | hierarchical | hybrid
deriving DecidableEq, Repr

/-- Embeds `OrchestrationService._recommend_decomposition_strategy`
(`services/orchestration_service.py`, lines 541-548): score below 0.4
gives sequential, below 0.7 parallel, otherwise hierarchical. -/
def recommend_decomposition_strategy (complexity_score : ℚ) : DecompositionStrategy :=
  if complexity_score < 2 / 5 then DecompositionStrategy.sequential
  else if complexity_score < 7 / 10 then DecompositionStrategy.parallel
  else DecompositionStrategy.hierarchical

/-- The score table of `_analyze_task_complexity` (lines 351-356):
`{"low": 0.3, "medium": 0.6, "high": 0.8, "extreme": 0.95}.get(c, 0.6)`. -/
def complexity_score_of (complexity : String) : ℚ :=
  if complexity = "low" then 3 / 10
  else if complexity = "medium" then 6 / 10
  else if complexity = "high" then 8 / 10
  else if complexity = "extreme" then 95 / 100
  else 6 / 10

/-- The analysis dict returned by `_analyze_task_complexity`. -/
structure ComplexityAnalysis where
  complexity_score : ℚ
  required_departments : List String
  estimated_subtasks : ℤ
  recommended_strategy : DecompositionStrategy
  parallelization_potential : Bool
  requires_coordination : Bool
deriving DecidableEq, Repr

/-- Embeds `OrchestrationService._analyze_task_complexity`
(`services/orchestration_service.py`, lines 343-386).  Python computes
`estimated_subtasks = max(2, int(complexity_score * 10))`; `int` on a
non-negative float truncates, i.e. takes the floor, and the products
`score * 10` are exact in double precision for all five possible scores
(3, 6, 8, 9.5, 6), so the rational floor below reproduces the Python
value exactly. -/
def analyze_task_complexity (description : String) (complexity : String)
    (required_expertise : List String) : ComplexityAnalysis :=
  let complexity_score := complexity_score_of complexity
  let matched := matched_departments description required_expertise
  let required_departments :=
    if matched = [] then ["general_specialist"] else matched
  { complexity_score := complexity_score
    required_departments := required_departments
    estimated_subtasks := max 2 ⌊complexity_score * 10⌋
    recommended_strategy := recommend_decomposition_strategy complexity_score
    parallelization_potential := decide (complexity_score > 1 / 2)
    requires_coordination := decide (1 < required_departments.length) }

/-- Embeds `estimated_subtasks` as the claim words it: `max(2, round(score * 10))`.
Kept separate from the source embedding for comparison.  (`round` here
rounds halves up; at the only half-integer product that occurs, `9.5`,
Python 3 rounding — half to even — also gives `10`.) -/
def estimated_subtasks_per_claim (score : ℚ) : ℤ :=
  max 2 (round (score * 10))

/-- Counterexample to claim C6: for complexity label `"extreme"` the code
computes `estimated_subtasks = max(2, int(0.95 * 10)) = 9` (truncation),
while the claim formula `max(2, round(score * 10))` gives `10`. -/
theorem c6_extreme_counterexample :
    (analyze_task_complexity "Build a system" "extreme" []).complexity_score = 95 / 100 ∧
    (analyze_task_complexity "Build a system" "extreme" []).estimated_subtasks = 9 ∧
    estimated_subtasks_per_claim (95 / 100) = 10 ∧
    (9 : ℤ) ≠ 10 := by
  refine ⟨rfl, ?_, ?_, by decide⟩
  · show max 2 ⌊complexity_score_of "extreme" * 10⌋ = 9
    rw [show complexity_score_of "extreme" = 95 / 100 from rfl]
    norm_num
  · show max 2 (round ((95 : ℚ) / 100 * 10)) = 10
    norm_num [round_eq]

/-- Claim C6 as amended: `_analyze_task_complexity` maps the labels
low/medium/high/extreme to the scores 0.3/0.6/0.8/0.95; derives
`estimated_subtasks = max(2, int(score * 10))`, i.e. with the product
TRUNCATED rather than rounded (the two differ only at `extreme`, where
the code yields 9, not 10); produces `required_departments` from the
fixed keyword table with fallback `["general_specialist"]` when no
keyword matches; and recommends sequential below score 0.4, parallel
below 0.7, hierarchical otherwise. -/
theorem c6_complexity_analysis (description : String)
    (required_expertise : List String) (s : ℚ) :
    ((analyze_task_complexity description "low" required_expertise).complexity_score = 3 / 10 ∧
     (analyze_task_complexity description "medium" required_expertise).complexity_score = 6 / 10 ∧
     (analyze_task_complexity description "high" required_expertise).complexity_score = 8 / 10 ∧
     (analyze_task_complexity description "extreme" required_expertise).complexity_score
       = 95 / 100) ∧
    (∀ c : String,
      (analyze_task_complexity description c required_expertise).estimated_subtasks
          = max 2 ⌊(analyze_task_complexity description c required_expertise).complexity_score
              * 10⌋ ∧
      (analyze_task_complexity description c required_expertise).required_departments
          = (if matched_departments description required_expertise = []
             then ["general_specialist"]
             else matched_departments description required_expertise) ∧
      (analyze_task_complexity description c required_expertise).required_departments ≠ [] ∧
      (analyze_task_complexity description c required_expertise).recommended_strategy
          = recommend_decomposition_strategy
              (analyze_task_complexity description c required_expertise).complexity_score) ∧
    ((s < 2 / 5 → recommend_decomposition_strategy s = DecompositionStrategy.sequential) ∧
     (2 / 5 ≤ s → s < 7 / 10 →
        recommend_decomposition_strategy s = DecompositionStrategy.parallel) ∧
     (7 / 10 ≤ s → recommend_decomposition_strategy s = DecompositionStrategy.hierarchical)) := by
  refine ⟨⟨rfl, rfl, rfl, rfl⟩, ?_, ?_, ?_, ?_⟩
  · intro c
    refine ⟨rfl, rfl, ?_, rfl⟩
    simp only [analyze_task_complexity]
    by_cases h : matched_departments description required_expertise = [] <;> simp [h]
  · intro h1
    simp [recommend_decomposition_strategy, h1]
  · intro h1 h2
    simp [recommend_decomposition_strategy, not_lt.mpr h1, h2]
  · intro h1
    have h2 : ¬ s < 2 / 5 := by linarith
    have h3 : ¬ s < 7 / 10 := by linarith
    simp [recommend_decomposition_strategy, h2, h3]

/-- Witness for C6 (amended) at concrete inputs: label low scores 0.3,
score 0.3 recommends sequential, score 0.95 recommends hierarchical, and
at label extreme the subtask count follows the floor formula. -/
theorem c6_complexity_analysis_witness :
    (analyze_task_complexity "x" "low" ["testing"]).complexity_score = 3 / 10 ∧
    recommend_decomposition_strategy (3 / 10) = DecompositionStrategy.sequential ∧
    recommend_decomposition_strategy (95 / 100) = DecompositionStrategy.hierarchical ∧
    (analyze_task_complexity "x" "extreme" ["testing"]).estimated_subtasks
      = max 2 ⌊(analyze_task_complexity "x" "extreme" ["testing"]).complexity_score * 10⌋ := by
  have h := c6_complexity_analysis "x" ["testing"] (3 / 10)
  have h2 := c6_complexity_analysis "x" ["testing"] (95 / 100)
  exact ⟨h.1.1, h.2.2.1 (by norm_num), h2.2.2.2.2 (by norm_num), (h.2.1 "extreme").1⟩

/-- The failure-analysis dict of
`OrchestrationService._analyze_task_failure`. -/
structure FailureAnalysis where
  failure_type : String
deriving DecidableEq, Repr

/-- Embeds `OrchestrationService._analyze_task_failure`
(`services/orchestration_service.py`, lines 680-686): always returns
`{"failure_type": "unknown"}` regardless of the task or the error
context. -/
def analyze_task_failure (_failed_task : TaskRecord)
    (_error_context : List (String × String)) : FailureAnalysis :=
  { failure_type := "unknown" }

/-- Embeds `OrchestrationService._determine_recovery_strategy`
(`services/orchestration_service.py`, lines 688-694): always returns
`"retry"` regardless of the task and the failure analysis. -/
def determine_recovery_strategy (_failed_task : TaskRecord)
    (_analysis : FailureAnalysis) : String :=
  "retry"

/-- The recovery action stubs (lines 696-714), each reduced to the
`action` tag of the dict it returns. -/
def retry_with_recovery (_t : TaskRecord) (_a : FailureAnalysis) : String := "retry"

def reassign_task (_t : TaskRecord) (_a : FailureAnalysis) : String := "reassign"

def decompose_failed_task (_t : TaskRecord) : String := "decompose"

def escalate_task (_t : TaskRecord) (_a : FailureAnalysis) : String := "escalate"

def abort_task_chain (_t : TaskRecord) : String := "abort"

/-- The result of `handle_task_failure`. -/
structure RecoveryResult where
  strategy : String
  actions_taken : List String
deriving DecidableEq, Repr

/-- Embeds `OrchestrationService.handle_task_failure`
(`services/orchestration_service.py`, lines 258-307): analyzes the
failure, determines the recovery strategy, then dispatches on the
strategy string over the five branches retry / reassign / decompose /
escalate / abort. -/
def handle_task_failure (failed_task : TaskRecord)
    (error_context : List (String × String)) : RecoveryResult :=
  let failure_analysis := analyze_task_failure failed_task error_context
  let recovery_strategy := determine_recovery_strategy failed_task failure_analysis
  let action : String :=
    if recovery_strategy = "retry" then retry_with_recovery failed_task failure_analysis
    else if recovery_strategy = "reassign" then reassign_task failed_task failure_analysis
    else if recovery_strategy = "decompose" then decompose_failed_task failed_task
    else if recovery_strategy = "escalate" then escalate_task failed_task failure_analysis
    else abort_task_chain failed_task
  { strategy := recovery_strategy
    actions_taken := [action] }

/-- The error context of spec Scenario E: the failure is reported as
caused by exceeded complexity. -/
def complexity_error_context : List (String × String) :=
  [("failure_reason", "exceeded complexity")]

/-- Claim C7, evaluated at the failing input: `_analyze_task_failure`
and `_determine_recovery_strategy` are stubs, so `handle_task_failure`
classifies every failure as `"unknown"` and selects `"retry"` for EVERY
failed task — in particular for a task whose error context indicates
exceeded complexity, where the claim (spec Scenario E) requires
`"decompose"`. -/
theorem c7_strategy_always_retry :
    (handle_task_failure (fail_task (create_task_record 3) "exceeded complexity" 2)
        complexity_error_context).strategy = "retry" ∧
    (analyze_task_failure (fail_task (create_task_record 3) "exceeded complexity" 2)
        complexity_error_context).failure_type = "unknown" ∧
    (∀ (t : TaskRecord) (ctx : List (String × String)),
      (handle_task_failure t ctx).strategy = "retry") ∧
    ("retry" : String) ≠ "decompose" := by
  refine ⟨rfl, rfl, fun _ _ => rfl, by decide⟩

/-- A task result handed to `compile_hierarchical_results`: the
`delegation_level` the loop groups by (`result.get("delegation_level", 0)`)
plus an opaque payload standing for the rest of the result dict. -/
structure LevelResult (α : Type) where
  delegation_level : Nat
  payload : α
deriving DecidableEq, Repr

/-- Embeds `level_groups[level]` of `compile_hierarchical_results` (lines
177-183): the results with the given delegation level, in input order. -/
def level_group {α : Type} (task_results : List (LevelResult α)) (level : Nat) :
    List (LevelResult α) :=
  task_results.filter (fun r => r.delegation_level == level)

/-- Embeds `max(level_groups.keys()) if level_groups else 0` (line 187). -/
def max_level {α : Type} (task_results : List (LevelResult α)) : Nat :=
  task_results.foldl (fun m r => max m r.delegation_level) 0

/-- One iteration of the compilation loop (lines 189-207) at `level`:
when the level is present (`if level in level_groups`), assess quality,
resolve conflicts, synthesize with
`parent_context = compiled_results.get(level + 1)` and store the result
at `level`; otherwise the compiled map is unchanged. -/
def compile_level_step {α σ : Type} (assess : List (LevelResult α) → List ℚ)
    (resolve : List (LevelResult α) → List ℚ → List (LevelResult α))
    (synthesize : List (LevelResult α) → Option σ → σ)
    (groups : Nat → List (LevelResult α))
    (compiled : Nat → Option σ) (level : Nat) : Nat → Option σ :=
  match groups level with
  | [] => compiled
  | _ :: _ => fun l =>
    if l = level then
      some (synthesize (resolve (groups level) (assess (groups level)))
        (compiled (level + 1)))
    else compiled l

/-- Embeds `OrchestrationService.compile_hierarchical_results`
(`services/orchestration_service.py`, lines 170-217): group the results
by delegation level, then run the loop `for level in range(max_level,
-1, -1)` over the compiled-results dict (modelled as a map
`Nat → Option σ`, `none` meaning the key is absent).  The three
per-level passes `_assess_result_quality`, `_resolve_result_conflicts`
and `_synthesize_level_results` are parameters: in the source they are
separate (stub) methods and the compilation logic is independent of
their bodies. -/
def compile_hierarchical_results {α σ : Type} (assess : List (LevelResult α) → List ℚ)
    (resolve : List (LevelResult α) → List ℚ → List (LevelResult α))
    (synthesize : List (LevelResult α) → Option σ → σ)
    (task_results : List (LevelResult α)) : Nat → Option σ :=
  ((List.range (max_level task_results + 1)).reverse).foldl
    (compile_level_step assess resolve synthesize (level_group task_results))
    (fun _ => none)

theorem compile_level_step_other {α σ : Type} (assess : List (LevelResult α) → List ℚ)
    (resolve : List (LevelResult α) → List ℚ → List (LevelResult α))
    (synthesize : List (LevelResult α) → Option σ → σ)
    (groups : Nat → List (LevelResult α)) (compiled : Nat → Option σ)
    (level l : Nat) (h : l ≠ level) :
    compile_level_step assess resolve synthesize groups compiled level l = compiled l := by
  rcases hgl : groups level with _ | ⟨a, as⟩
  · simp [compile_level_step, hgl]
  · simp [compile_level_step, hgl, h]

theorem compile_foldl_untouched {α σ : Type} (assess : List (LevelResult α) → List ℚ)
    (resolve : List (LevelResult α) → List ℚ → List (LevelResult α))
    (synthesize : List (LevelResult α) → Option σ → σ)
    (groups : Nat → List (LevelResult α)) :
    ∀ (ls : List Nat) (compiled : Nat → Option σ) (l : Nat), (∀ x ∈ ls, x ≠ l) →
      ls.foldl (compile_level_step assess resolve synthesize groups) compiled l
        = compiled l := by
  intro ls
  induction ls with
  | nil => intro compiled l _; rfl
  | cons x xs ih =>
    intro compiled l hne
    have hx : l ≠ x := fun h => (hne x (List.mem_cons_self x xs)) h.symm
    have := ih (compile_level_step assess resolve synthesize groups compiled x) l
      (fun y hy => hne y (List.mem_cons_of_mem x hy))
    rw [List.foldl_cons, this,
      compile_level_step_other assess resolve synthesize groups compiled x l hx]

theorem compile_foldl_empty_group {α σ : Type} (assess : List (LevelResult α) → List ℚ)
    (resolve : List (LevelResult α) → List ℚ → List (LevelResult α))
    (synthesize : List (LevelResult α) → Option σ → σ)
    (groups : Nat → List (LevelResult α)) :
    ∀ (ls : List Nat) (compiled : Nat → Option σ) (l : Nat), groups l = [] →
      ls.foldl (compile_level_step assess resolve synthesize groups) compiled l
        = compiled l := by
  intro ls
  induction ls with
  | nil => intro compiled l _; rfl
  | cons x xs ih =>
    intro compiled l hempty
    rw [List.foldl_cons, ih _ l hempty]
    by_cases hx : l = x
    · subst hx
      simp [compile_level_step, hempty]
    · exact compile_level_step_other assess resolve synthesize groups compiled x l hx

theorem compile_foldl_recurrence {α σ : Type} (assess : List (LevelResult α) → List ℚ)
    (resolve : List (LevelResult α) → List ℚ → List (LevelResult α))
    (synthesize : List (LevelResult α) → Option σ → σ)
    (groups : Nat → List (LevelResult α)) :
    ∀ (n : Nat) (compiled : Nat → Option σ) (L : Nat), L < n → groups L ≠ [] →
      ((List.range n).reverse).foldl
          (compile_level_step assess resolve synthesize groups) compiled L
        = some (synthesize (resolve (groups L) (assess (groups L)))
            (((List.range n).reverse).foldl
              (compile_level_step assess resolve synthesize groups) compiled (L + 1))) := by
  intro n
  induction n with
  | zero => intro compiled L hL; omega
  | succ m ih =>
    intro compiled L hL hne
    have hdesc : (List.range (m + 1)).reverse = m :: (List.range m).reverse := by
      rw [List.range_succ, List.reverse_append]
      rfl
    rw [hdesc, List.foldl_cons]
    by_cases hLm : L < m
    · exact ih (compile_level_step assess resolve synthesize groups compiled m) L hLm hne
    · have hLeq : L = m := by omega
      subst hLeq
      have hmemlt : ∀ x ∈ (List.range L).reverse, x ≠ L := by
        intro x hx
        have : x < L := by simpa using List.mem_range.mp (List.mem_reverse.mp hx)
        omega
      have hmemlt2 : ∀ x ∈ (List.range L).reverse, x ≠ L + 1 := by
        intro x hx
        have : x < L := by simpa using List.mem_range.mp (List.mem_reverse.mp hx)
        omega
      rw [compile_foldl_untouched assess resolve synthesize groups _ _ L hmemlt,
        compile_foldl_untouched assess resolve synthesize groups _ _ (L + 1) hmemlt2,
        compile_level_step_other assess resolve synthesize groups compiled L (L + 1)
          (by omega)]
      obtain ⟨a, as, hgl⟩ := List.exists_cons_of_ne_nil hne
      simp [compile_level_step, hgl]

/-- Claim C1: `compile_hierarchical_results` groups the results by
delegation level and compiles bottom-up — for every level `L` that is
present (`L ≤ max_level` with a non-empty group), the compiled entry at
`L` is the synthesis of the conflict-resolution pass applied to the
quality-assessment pass of the level group, with the compiled entry of
level `L + 1` passed as `parent_context`; levels above `max_level` and
absent levels have no compiled entry (their `parent_context` lookup
yields `None`).  This recurrence of the FINAL compiled map is exactly
the deepest-to-shallowest processing order: a shallower level is always
synthesized from the already-final result of the level above it. -/
theorem c1_compile_bottom_up {α σ : Type} (assess : List (LevelResult α) → List ℚ)
    (resolve : List (LevelResult α) → List ℚ → List (LevelResult α))
    (synthesize : List (LevelResult α) → Option σ → σ)
    (task_results : List (LevelResult α)) (L : Nat)
    (hle : L ≤ max_level task_results) (hne : level_group task_results L ≠ []) :
    compile_hierarchical_results assess resolve synthesize task_results L
      = some (synthesize
          (resolve (level_group task_results L) (assess (level_group task_results L)))
          (compile_hierarchical_results assess resolve synthesize task_results (L + 1))) ∧
    (∀ l, max_level task_results < l →
      compile_hierarchical_results assess resolve synthesize task_results l = none) ∧
    (∀ l, level_group task_results l = [] →
      compile_hierarchical_results assess resolve synthesize task_results l = none) := by
  refine ⟨?_, ?_, ?_⟩
  · exact compile_foldl_recurrence assess resolve synthesize
      (level_group task_results) (max_level task_results + 1) (fun _ => none) L
      (by omega) hne
  · intro l hl
    unfold compile_hierarchical_results
    rw [compile_foldl_untouched assess resolve synthesize (level_group task_results) _ _ l]
    intro x hx
    have : x < max_level task_results + 1 := List.mem_range.mp (List.mem_reverse.mp hx)
    omega
  · intro l hl
    unfold compile_hierarchical_results
    exact compile_foldl_empty_group assess resolve synthesize
      (level_group task_results) _ _ l hl

/-- Concrete two-level result list for the C1 witness. -/
def c1_sample_results : List (LevelResult Nat) :=
  [⟨0, 10⟩, ⟨1, 20⟩, ⟨1, 30⟩]

/-- The source stub `_assess_result_quality`: `[0.8] * len(results)`. -/
def assess_result_quality {α : Type} (results : List (LevelResult α)) : List ℚ :=
  results.map (fun _ => 4 / 5)

/-- The source stub `_resolve_result_conflicts`: returns the results. -/
def resolve_result_conflicts {α : Type} (results : List (LevelResult α))
    (_quality_scores : List ℚ) : List (LevelResult α) :=
  results

/-- A concrete synthesis function for the C1 witness (the source one is
a stub; the claim theorem holds for every synthesis function). -/
def c1_sample_synthesize (results : List (LevelResult Nat)) (parent_context : Option Nat) :
    Nat :=
  (results.map (fun r => r.payload)).sum + 1000 * parent_context.getD 0

/-- Witness for C1 at the concrete input `c1_sample_results`, the source
stub passes and a concrete synthesis function: level 0 is synthesized
with the compiled level-1 entry as parent context. -/
theorem c1_compile_bottom_up_witness :
    (0 ≤ max_level c1_sample_results ∧ level_group c1_sample_results 0 ≠ []) ∧
    compile_hierarchical_results assess_result_quality resolve_result_conflicts
        c1_sample_synthesize c1_sample_results 0
      = some (c1_sample_synthesize
          (resolve_result_conflicts (level_group c1_sample_results 0)
            (assess_result_quality (level_group c1_sample_results 0)))
          (compile_hierarchical_results assess_result_quality resolve_result_conflicts
            c1_sample_synthesize c1_sample_results 1)) :=
  ⟨⟨Nat.zero_le _, by decide⟩,
    (c1_compile_bottom_up assess_result_quality resolve_result_conflicts
      c1_sample_synthesize c1_sample_results 0 (Nat.zero_le _) (by decide)).1⟩

/-- The stored agent table, as `AgentService` sees it through the
repository. -/
structure AgentDb where
  agents : List Agent
deriving DecidableEq, Repr

/-- Embeds `AgentRepository.get_by_id`, as used by `AgentService.get_agent`. -/
def get_agent (db : AgentDb) (agent_id : Nat) : Option Agent :=
  db.agents.find? (fun a => a.id == agent_id)

/-- Embeds `AgentRepository.get_subordinates` (`database/repositories.py`,
lines 149-159): the agents whose `parent_agent_id` equals the given id. -/
def get_subordinates (db : AgentDb) (parent_agent_id : Nat) : List Agent :=
  db.agents.filter (fun a => a.parent_agent_id == some parent_agent_id)

/-- The `agent_info` tree node built by `build_hierarchy` inside
`AgentService.get_agent_hierarchy`: the agent, its level, and the
sub-hierarchies of its subordinates. -/
inductive AgentHierarchy where
  | node : Agent → Nat → List AgentHierarchy → AgentHierarchy

/-- The inner recursion `build_hierarchy(agent_id, level)` of
`AgentService.get_agent_hierarchy` (`services/agent_service.py`, lines
344-373), which recurses into every subordinate with NO visited-set and
no other cycle guard.  Because the Python recursion need not terminate,
the embedding is fuel-indexed: the outer `Option` is `none` exactly when
the recursion does not finish within `fuel` nested calls (so a result
that is `none` for EVERY fuel is a non-terminating run); the inner
`Option` is the `None` the Python function returns for a missing agent
(such subordinate entries are skipped by the `if sub_hierarchy` test). -/
def build_hierarchy (db : AgentDb) : Nat → Nat → Nat → Option (Option AgentHierarchy)
  | 0, _, _ => none
  | fuel + 1, agent_id, level =>
    match get_agent db agent_id with
    | none => some none
    | some agent =>
      match (get_subordinates db agent_id).mapM
          (fun s => build_hierarchy db fuel s.id (level + 1)) with
      | none => none
      | some sub_results =>
        some (some (AgentHierarchy.node agent level (sub_results.filterMap id)))

/-- Embeds `AgentService.get_agent_hierarchy(root_agent_id)`: the inner
recursion started at the root with `level = 0`, with the given fuel. -/
def get_agent_hierarchy (db : AgentDb) (fuel : Nat) (root_agent_id : Nat) :
    Option (Option AgentHierarchy) :=
  build_hierarchy db fuel root_agent_id 0

/-- A stored agent graph whose parent links (incorrectly) form a cycle:
agent 1 is the parent of agent 2 and agent 2 is the parent of agent 1. -/
def cyclic_agent_db : AgentDb :=
  { agents := [create_agent_record 1 (some 2) AgentStatus.active,
               create_agent_record 2 (some 1) AgentStatus.active] }

theorem build_hierarchy_cyclic_none (fuel : Nat) :
    ∀ level : Nat,
      build_hierarchy cyclic_agent_db fuel 1 level = none ∧
      build_hierarchy cyclic_agent_db fuel 2 level = none := by
  induction fuel with
  | zero => intro level; exact ⟨rfl, rfl⟩
  | succ n ih =>
    intro level
    have hga1 : get_agent cyclic_agent_db 1
        = some (create_agent_record 1 (some 2) AgentStatus.active) := rfl
    have hga2 : get_agent cyclic_agent_db 2
        = some (create_agent_record 2 (some 1) AgentStatus.active) := rfl
    have hsub1 : get_subordinates cyclic_agent_db 1
        = [create_agent_record 2 (some 1) AgentStatus.active] := rfl
    have hsub2 : get_subordinates cyclic_agent_db 2
        = [create_agent_record 1 (some 2) AgentStatus.active] := rfl
    have hid1 : (create_agent_record 1 (some 2) AgentStatus.active).id = 1 := rfl
    have hid2 : (create_agent_record 2 (some 1) AgentStatus.active).id = 2 := rfl
    constructor
    · have h2 := (ih (level + 1)).2
      simp [build_hierarchy, hga1, hsub1, hid2, List.mapM, List.mapM.loop, h2]
    · have h1 := (ih (level + 1)).1
      simp [build_hierarchy, hga2, hsub2, hid1, List.mapM, List.mapM.loop, h1]

/-- Claim C9, evaluated at the failing input: on the two-agent cyclic
graph, `get_agent_hierarchy(1)` produces no result no matter how many
nested calls it is allowed — the recursion never returns (in CPython it
aborts with `RecursionError` once the interpreter stack limit is hit),
because `build_hierarchy` has no visited-set guard.  The claim requires
termination with a finite tree on every stored graph, cycles included. -/
theorem c9_hierarchy_diverges_on_cycle :
    ∀ fuel : Nat, get_agent_hierarchy cyclic_agent_db fuel 1 = none :=
  fun fuel => (build_hierarchy_cyclic_none fuel 0).1

/-- Sanity check of the embedding (not itself a claim): on an acyclic
two-agent chain the same recursion does terminate and returns the
expected nested tree once the fuel exceeds the chain depth. -/
def chain_agent_db : AgentDb :=
  { agents := [create_agent_record 1 none AgentStatus.active,
               create_agent_record 2 (some 1) AgentStatus.active] }

theorem build_hierarchy_chain_terminates :
    get_agent_hierarchy chain_agent_db 3 1
      = some (some (AgentHierarchy.node (create_agent_record 1 none AgentStatus.active) 0
          [AgentHierarchy.node (create_agent_record 2 (some 1) AgentStatus.active) 1 []])) := by
  rfl
